import Mathlib

/-
Verification of the room-scoped broadcast coordination core of the
blueprint relay gateway (server.js): the room-key function, the
persistence-client envelope unwrapping, and the join-room, draw-event,
leave-room and disconnect handlers, embedded as pure functions over a
small model of JavaScript runtime values.
-/

namespace RelayGateway

/-- JavaScript runtime values as far as the gateway inspects them: null,
undefined, booleans, numbers (modelled as integers; no inspected value is
fractional), strings, and objects as field lists. -/
inductive JSValue where
  | vnull
  | vundefined
  | vbool (b : Bool)
  | vnum (n : Int)
  | vstr (s : String)
  | vobj (fields : List (String × JSValue))

/-- Lookup of an object field by name; absent fields read as undefined. -/
def lookupField : List (String × JSValue) → String → JSValue
  | [], _ => .vundefined
  | (k, v) :: rest, key => if k = key then v else lookupField rest key

/-- Property access value.key; non-objects yield undefined here (the code
only dereferences values it has already checked truthy). -/
def getField : JSValue → String → JSValue
  | .vobj fields, key => lookupField fields key
  | _, _ => .vundefined

/-- JavaScript truthiness: null, undefined, false, 0 and the empty string
are falsy; every other value is truthy. -/
def truthy : JSValue → Bool
  | .vnull => false
  | .vundefined => false
  | .vbool b => b
  | .vnum n => n != 0
  | .vstr s => s != ""
  | .vobj _ => true

/-- String coercion as used by template literals in roomName. -/
def jsToString : JSValue → String
  | .vnull => "null"
  | .vundefined => "undefined"
  | .vbool b => if b then "true" else "false"
  | .vnum n => toString n
  | .vstr s => s
  | .vobj _ => "[object Object]"

/-- roomName from server.js: the stable room key for a blueprint identity. -/
def roomName (author name : String) : String :=
  "room:" ++ author ++ "-" ++ name

/-- Unwrapping of the Spring ApiResponse envelope inside fetchBlueprint:
the JavaScript expression res.data and-and res.data.data, used as a
condition, selecting res.data.data when both are truthy and null
otherwise. Here resData stands for res.data, the parsed response body. -/
def unwrapApiResponse (resData : JSValue) : JSValue :=
  if truthy resData && truthy (getField resData "data") then
    getField resData "data"
  else
    .vnull

/-- Outcome of the HTTP GET inside fetchBlueprint: a transport or HTTP
failure (axios rejects, carrying an error message), or a response whose
parsed body is resData. -/
inductive FetchOutcome where
  | failure (reason : String)
  | success (resData : JSValue)

/-- fetchBlueprint from server.js: on transport failure the promise
rejects (modelled as Except.error); on success it unwraps the envelope
and returns the data field, or null when data is missing or falsy. -/
def fetchBlueprint : FetchOutcome → Except String JSValue
  | .failure r => .error r
  | .success resData => .ok (unwrapApiResponse resData)

/-- Observable actions a handler performs, in order: resolving the
optional acknowledgment callback, emitting an event to the calling socket
only, broadcasting an event to a room (io.to(room).emit, which includes
the caller when it is a member), and the two persistence-client calls. -/
inductive Effect where
  | ackCall (response : JSValue)
  | emitCaller (event : String) (body : JSValue)
  | broadcastRoom (room : String) (event : String) (body : JSValue)
  | appendCall (author name point : JSValue)
  | fetchCall (author name : JSValue)

def Effect.isBroadcast : Effect → Bool
  | .broadcastRoom _ _ _ => true
  | _ => false

def Effect.isAppendCall : Effect → Bool
  | .appendCall _ _ _ => true
  | _ => false

def Effect.isFetchCall : Effect → Bool
  | .fetchCall _ _ => true
  | _ => false

/-- The error or warning body shape the handlers emit. -/
def errObj (msg : String) : JSValue :=
  .vobj [("message", .vstr msg)]

/-- The failing acknowledgment value ok=false with a message. -/
def ackFail (msg : String) : JSValue :=
  .vobj [("ok", .vbool false), ("message", .vstr msg)]

/-- The successful acknowledgment value ok=true. -/
def ackOk : JSValue :=
  .vobj [("ok", .vbool true)]

/-- The acknowledgment call when a callback was supplied: the code guards
every ack with a typeof check, so nothing happens without one. -/
def ackIf (hasAck : Bool) (v : JSValue) : List Effect :=
  if hasAck then [.ackCall v] else []

/-- The draw-event handler from server.js as a trace function: given the
payload, whether an acknowledgment callback was supplied, and the
outcomes the two persistence calls would produce if reached, it returns
the ordered list of observable effects. appendOutcome is the result of
persistPoint (axios PUT: resolves or rejects with an error message);
fetchOutcome feeds fetchBlueprint. -/
def drawEventHandler (payload : JSValue) (hasAck : Bool)
    (appendOutcome : Except String Unit) (fetchOutcome : FetchOutcome) :
    List Effect :=
  if !(truthy payload && truthy (getField payload "author") &&
      truthy (getField payload "name") && truthy (getField payload "point")) then
    ackIf hasAck (ackFail "draw-event: missing author, name or point") ++
      [.emitCaller "error" (errObj "draw-event: missing author, name or point")]
  else
    let author := getField payload "author"
    let name := getField payload "name"
    let point := getField payload "point"
    let room := roomName (jsToString author) (jsToString name)
    .appendCall author name point ::
      match appendOutcome with
      | .error e =>
        ackIf hasAck (ackFail ("Failed to persist point: " ++ e)) ++
          [.emitCaller "error" (errObj ("Failed to persist point: " ++ e))]
      | .ok _ =>
        .fetchCall author name ::
          match fetchBlueprint fetchOutcome with
          | .error e =>
            ackIf hasAck (ackFail ("Failed to fetch updated blueprint: " ++ e)) ++
              [.emitCaller "warning" (errObj ("Failed to fetch updated blueprint: " ++ e))]
          | .ok updatedBlueprint =>
            if !truthy updatedBlueprint then
              ackIf hasAck (ackFail "Blueprint not found after persisting point") ++
                [.emitCaller "warning" (errObj "Blueprint not found after persisting point")]
            else
              .broadcastRoom room "blueprint-update" updatedBlueprint ::
                ackIf hasAck ackOk

/-- A socket identifier; opaque to the core. -/
abbrev SocketId := Nat

/-- Modelled from the spec: the Room Registry membership state. The
mapping from room keys to member connection sets lives in the transport
library (its room adapter), not in the files under src; the spec
describes it as a set of members per room key. We record it as the set of
(room key, socket) membership pairs. -/
abbrev RoomState := List (String × SocketId)

/-- Modelled from the spec: membership test of the Room Registry. -/
def isMember (st : RoomState) (room : String) (s : SocketId) : Bool :=
  decide ((room, s) ∈ st)

/-- Modelled from the spec: the join operation of the Room Registry
(socket.join in the transport library) — idempotent, adds the membership
pair if absent. -/
def sioJoin (st : RoomState) (room : String) (s : SocketId) : RoomState :=
  if (room, s) ∈ st then st else (room, s) :: st

/-- Modelled from the spec: the leave operation of the Room Registry
(socket.leave in the transport library) — idempotent removal. -/
def sioLeave (st : RoomState) (room : String) (s : SocketId) : RoomState :=
  st.filter (fun p => decide (p ≠ (room, s)))

/-- Modelled from the spec: removeConnectionEverywhere, performed by the
transport library when a socket disconnects (the disconnect handler in
server.js itself only logs); removes the socket from every room. -/
def sioDisconnect (st : RoomState) (s : SocketId) : RoomState :=
  st.filter (fun p => decide (p.2 ≠ s))

/-- Modelled from the spec: the recipients of a broadcast to a room are
exactly its current members. -/
def broadcastRecipients (st : RoomState) (room : String) : List SocketId :=
  (st.filter (fun p => decide (p.1 = room))).map (fun p => p.2)

/-- The join-room handler from server.js: validates the payload, joins
the room, then attempts the initial fetch; returns the new registry
state and the ordered effects on the calling socket. -/
def joinRoomHandler (payload : JSValue) (fetchOutcome : FetchOutcome)
    (st : RoomState) (caller : SocketId) : RoomState × List Effect :=
  if !(truthy payload && truthy (getField payload "author") &&
      truthy (getField payload "name")) then
    (st, [.emitCaller "error" (errObj "join-room: missing author or name")])
  else
    let author := getField payload "author"
    let name := getField payload "name"
    let room := roomName (jsToString author) (jsToString name)
    let st' := sioJoin st room caller
    (st',
      .fetchCall author name ::
        match fetchBlueprint fetchOutcome with
        | .error _ =>
          [.emitCaller "warning" (errObj "Could not fetch blueprint state from API")]
        | .ok bp =>
          if truthy bp then [.emitCaller "blueprint-update" bp] else [])

/-- The leave-room handler from server.js: silently ignores invalid
payloads, otherwise removes the caller from the room. -/
def leaveRoomHandler (payload : JSValue) (st : RoomState)
    (caller : SocketId) : RoomState :=
  if !(truthy payload && truthy (getField payload "author") &&
      truthy (getField payload "name")) then
    st
  else
    sioLeave st
      (roomName (jsToString (getField payload "author"))
        (jsToString (getField payload "name"))) caller

/-- A sample valid draw-event payload used by concrete witnesses. -/
def samplePayload : JSValue :=
  .vobj [("author", .vstr "alice"), ("name", .vstr "plano1"),
    ("point", .vobj [("x", .vnum 10), ("y", .vnum 20)])]

/-- A sample join-room payload used by concrete witnesses. -/
def sampleJoinPayload : JSValue :=
  .vobj [("author", .vstr "alice"), ("name", .vstr "plano1")]

/-- Splitting a character list at a separator absent from the left parts
is unambiguous. -/
theorem sep_split_inj {l₁ r₁ l₂ r₂ : List Char}
    (h₁ : '-' ∉ l₁) (h₂ : '-' ∉ l₂)
    (h : l₁ ++ '-' :: r₁ = l₂ ++ '-' :: r₂) : l₁ = l₂ ∧ r₁ = r₂ := by
  induction l₁ generalizing l₂ with
  | nil =>
    cases l₂ with
    | nil => simpa using h
    | cons c cs =>
      exfalso
      simp only [List.nil_append, List.cons_append, List.cons.injEq] at h
      apply h₂
      rw [h.1]
      exact List.mem_cons_self c cs
  | cons c cs ih =>
    cases l₂ with
    | nil =>
      exfalso
      simp only [List.nil_append, List.cons_append, List.cons.injEq] at h
      apply h₁
      rw [← h.1]
      exact List.mem_cons_self c cs
    | cons d ds =>
      simp only [List.cons_append, List.cons.injEq] at h
      obtain ⟨hc, ht⟩ := h
      have h₁' : '-' ∉ cs := fun hm => h₁ (List.mem_cons_of_mem _ hm)
      have h₂' : '-' ∉ ds := fun hm => h₂ (List.mem_cons_of_mem _ hm)
      obtain ⟨hl, hr⟩ := ih h₁' h₂' ht
      exact ⟨by rw [hc, hl], hr⟩

/-- The character data of a room key: the fixed prefix, the author, the
separator and the name. -/
theorem roomName_data (author name : String) :
    (roomName author name).data =
      "room:".data ++ (author.data ++ '-' :: name.data) := by
  simp [roomName, String.data_append]

/-- C2 counterexample: two distinct valid pairs with non-empty fields,
author a-b with name c and author a with name b-c, map to the same room
key. -/
theorem roomName_collision :
    roomName "a-b" "c" = roomName "a" "b-c" ∧
    ¬(("a-b" : String) = "a" ∧ ("c" : String) = "b-c") ∧
    ("a-b" : String) ≠ "" ∧ ("c" : String) ≠ "" ∧
    ("a" : String) ≠ "" ∧ ("b-c" : String) ≠ "" := by
  refine ⟨rfl, ?_, by decide, by decide, by decide, by decide⟩
  intro hcontra
  exact absurd hcontra.1 (by decide)

/-- C2 (amended): roomName is deterministic (it is a pure function of its
two arguments), and it is injective over pairs whose author contains no
hyphen; pairs whose author contains the separator character may collide. -/
theorem roomName_injective_noHyphenAuthor
    (a₁ n₁ a₂ n₂ : String)
    (h₁ : '-' ∉ a₁.data) (h₂ : '-' ∉ a₂.data)
    (h : roomName a₁ n₁ = roomName a₂ n₂) : a₁ = a₂ ∧ n₁ = n₂ := by
  have hd := congrArg String.data h
  rw [roomName_data, roomName_data] at hd
  have hsplit := sep_split_inj h₁ h₂ (List.append_cancel_left hd)
  exact ⟨String.ext hsplit.1, String.ext hsplit.2⟩

/-- C2 witness: the amended injectivity applied at the concrete
hyphen-free pair alice, plano1. -/
theorem roomName_injective_noHyphenAuthor_witness :
    ("alice" : String) = "alice" ∧ ("plano1" : String) = "plano1" :=
  roomName_injective_noHyphenAuthor "alice" "plano1" "alice" "plano1"
    (by decide) (by decide) rfl

/-- Every current member of a room is among the recipients of a
broadcast to that room. -/
theorem member_mem_broadcastRecipients (st : RoomState) (room : String)
    (s : SocketId) (h : isMember st room s = true) :
    s ∈ broadcastRecipients st room := by
  have hm : (room, s) ∈ st := by simpa [isMember] using h
  exact List.mem_map.mpr ⟨(room, s), List.mem_filter.mpr ⟨hm, by simp⟩, rfl⟩

/-- C1: for a draw-event whose author, name and point are all present,
when persistPoint fails the handler acknowledges failure (when a callback
was supplied) with a descriptive message, emits an error event to the
caller, and stops: no broadcast and no fetch call occur. -/
theorem drawEvent_appendFailure_stops
    (payload : JSValue) (hasAck : Bool) (e : String)
    (fetchOutcome : FetchOutcome)
    (hp : truthy payload = true)
    (ha : truthy (getField payload "author") = true)
    (hn : truthy (getField payload "name") = true)
    (hpt : truthy (getField payload "point") = true) :
    (hasAck = true →
      Effect.ackCall (ackFail ("Failed to persist point: " ++ e)) ∈
        drawEventHandler payload hasAck (Except.error e) fetchOutcome) ∧
    Effect.emitCaller "error" (errObj ("Failed to persist point: " ++ e)) ∈
      drawEventHandler payload hasAck (Except.error e) fetchOutcome ∧
    (∀ eff ∈ drawEventHandler payload hasAck (Except.error e) fetchOutcome,
      eff.isBroadcast = false ∧ eff.isFetchCall = false) := by
  have hv : drawEventHandler payload hasAck (Except.error e) fetchOutcome =
      Effect.appendCall (getField payload "author") (getField payload "name")
          (getField payload "point") ::
        (ackIf hasAck (ackFail ("Failed to persist point: " ++ e)) ++
          [Effect.emitCaller "error"
            (errObj ("Failed to persist point: " ++ e))]) := by
    simp [drawEventHandler, hp, ha, hn, hpt]
  rw [hv]
  cases hasAck <;>
    simp [ackIf, Effect.isBroadcast, Effect.isFetchCall]

/-- C1 witness: the append-failure theorem at a concrete payload with an
acknowledgment callback supplied. -/
theorem drawEvent_appendFailure_stops_witness :
    Effect.emitCaller "error" (errObj ("Failed to persist point: " ++ "timeout")) ∈
      drawEventHandler samplePayload true (Except.error "timeout")
        (FetchOutcome.failure "down") :=
  (drawEvent_appendFailure_stops samplePayload true "timeout"
    (FetchOutcome.failure "down") (by decide) (by decide) (by decide)
    (by decide)).2.1

/-- C3: for a draw-event whose fields are present, when persistPoint
succeeds and fetchBlueprint returns a present (truthy) document, the
handler performs exactly one broadcast, of that document under
blueprint-update, to the room (whose recipients are all current members,
the originating socket included when it is a member), and the successful
acknowledgment ok=true follows the broadcast when a callback was
supplied. -/
theorem drawEvent_success_broadcasts
    (payload : JSValue) (hasAck : Bool) (resData : JSValue)
    (hp : truthy payload = true)
    (ha : truthy (getField payload "author") = true)
    (hn : truthy (getField payload "name") = true)
    (hpt : truthy (getField payload "point") = true)
    (hbp : truthy (unwrapApiResponse resData) = true) :
    drawEventHandler payload hasAck (Except.ok ())
        (FetchOutcome.success resData) =
      Effect.appendCall (getField payload "author") (getField payload "name")
          (getField payload "point") ::
        Effect.fetchCall (getField payload "author") (getField payload "name") ::
        Effect.broadcastRoom
          (roomName (jsToString (getField payload "author"))
            (jsToString (getField payload "name")))
          "blueprint-update" (unwrapApiResponse resData) ::
        ackIf hasAck ackOk ∧
    ((drawEventHandler payload hasAck (Except.ok ())
        (FetchOutcome.success resData)).filter Effect.isBroadcast).length = 1 ∧
    (∀ st sck,
      isMember st
          (roomName (jsToString (getField payload "author"))
            (jsToString (getField payload "name"))) sck = true →
      sck ∈ broadcastRecipients st
        (roomName (jsToString (getField payload "author"))
          (jsToString (getField payload "name")))) := by
  have hv : drawEventHandler payload hasAck (Except.ok ())
      (FetchOutcome.success resData) =
      Effect.appendCall (getField payload "author") (getField payload "name")
          (getField payload "point") ::
        Effect.fetchCall (getField payload "author") (getField payload "name") ::
        Effect.broadcastRoom
          (roomName (jsToString (getField payload "author"))
            (jsToString (getField payload "name")))
          "blueprint-update" (unwrapApiResponse resData) ::
        ackIf hasAck ackOk := by
    simp [drawEventHandler, fetchBlueprint, hp, ha, hn, hpt, hbp]
  refine ⟨hv, ?_, fun st sck h => member_mem_broadcastRecipients st _ sck h⟩
  rw [hv]
  cases hasAck <;>
    simp [ackIf, Effect.isBroadcast, List.filter]

/-- C3 witness: the success theorem at a concrete payload, envelope and
acknowledgment callback. -/
theorem drawEvent_success_broadcasts_witness :
    drawEventHandler samplePayload true (Except.ok ())
        (FetchOutcome.success
          (JSValue.vobj [("data", JSValue.vstr "bp")])) =
      Effect.appendCall (JSValue.vstr "alice") (JSValue.vstr "plano1")
          (JSValue.vobj [("x", JSValue.vnum 10), ("y", JSValue.vnum 20)]) ::
        Effect.fetchCall (JSValue.vstr "alice") (JSValue.vstr "plano1") ::
        Effect.broadcastRoom (roomName "alice" "plano1") "blueprint-update"
          (unwrapApiResponse (JSValue.vobj [("data", JSValue.vstr "bp")])) ::
        ackIf true ackOk :=
  (drawEvent_success_broadcasts samplePayload true
    (JSValue.vobj [("data", JSValue.vstr "bp")]) (by decide) (by decide)
    (by decide) (by decide) (by decide)).1

/-- C4: for a draw-event whose fields are present, when persistPoint
succeeds but the fetch fails, the handler acknowledges ok=false (when a
callback was supplied), emits a warning (and no error event), and stops
without any broadcast. -/
theorem drawEvent_fetchFailure_warns
    (payload : JSValue) (hasAck : Bool) (e : String)
    (hp : truthy payload = true)
    (ha : truthy (getField payload "author") = true)
    (hn : truthy (getField payload "name") = true)
    (hpt : truthy (getField payload "point") = true) :
    (hasAck = true →
      Effect.ackCall (ackFail ("Failed to fetch updated blueprint: " ++ e)) ∈
        drawEventHandler payload hasAck (Except.ok ())
          (FetchOutcome.failure e)) ∧
    Effect.emitCaller "warning"
        (errObj ("Failed to fetch updated blueprint: " ++ e)) ∈
      drawEventHandler payload hasAck (Except.ok ()) (FetchOutcome.failure e) ∧
    (∀ eff ∈ drawEventHandler payload hasAck (Except.ok ())
        (FetchOutcome.failure e), eff.isBroadcast = false) ∧
    (∀ b, Effect.emitCaller "error" b ∉
      drawEventHandler payload hasAck (Except.ok ()) (FetchOutcome.failure e)) := by
  have hv : drawEventHandler payload hasAck (Except.ok ())
      (FetchOutcome.failure e) =
      Effect.appendCall (getField payload "author") (getField payload "name")
          (getField payload "point") ::
        Effect.fetchCall (getField payload "author") (getField payload "name") ::
        (ackIf hasAck (ackFail ("Failed to fetch updated blueprint: " ++ e)) ++
          [Effect.emitCaller "warning"
            (errObj ("Failed to fetch updated blueprint: " ++ e))]) := by
    simp [drawEventHandler, fetchBlueprint, hp, ha, hn, hpt]
  rw [hv]
  cases hasAck <;>
    simp [ackIf, Effect.isBroadcast]

/-- C4 witness: the fetch-failure theorem at a concrete payload with an
acknowledgment callback supplied. -/
theorem drawEvent_fetchFailure_warns_witness :
    Effect.emitCaller "warning"
        (errObj ("Failed to fetch updated blueprint: " ++ "timeout")) ∈
      drawEventHandler samplePayload true (Except.ok ())
        (FetchOutcome.failure "timeout") :=
  (drawEvent_fetchFailure_warns samplePayload true "timeout" (by decide)
    (by decide) (by decide) (by decide)).2.1

/-- The trace of a draw-event whose append succeeded but whose fetch
unwrapped to an absent document. -/
theorem drawEvent_absent_trace
    (payload : JSValue) (hasAck : Bool) (resData : JSValue)
    (hp : truthy payload = true)
    (ha : truthy (getField payload "author") = true)
    (hn : truthy (getField payload "name") = true)
    (hpt : truthy (getField payload "point") = true)
    (hbp : truthy (unwrapApiResponse resData) = false) :
    drawEventHandler payload hasAck (Except.ok ())
        (FetchOutcome.success resData) =
      Effect.appendCall (getField payload "author") (getField payload "name")
          (getField payload "point") ::
        Effect.fetchCall (getField payload "author") (getField payload "name") ::
        (ackIf hasAck (ackFail "Blueprint not found after persisting point") ++
          [Effect.emitCaller "warning"
            (errObj "Blueprint not found after persisting point")]) := by
  simp [drawEventHandler, fetchBlueprint, hp, ha, hn, hpt, hbp]

/-- C5: for a draw-event whose fields are present, when persistPoint
succeeds and the fetch succeeds but unwraps to an absent document, the
handler acknowledges failure with the descriptive reason, emits a
warning, and stops without any broadcast. -/
theorem drawEvent_absentDocument_warns
    (payload : JSValue) (hasAck : Bool) (resData : JSValue)
    (hp : truthy payload = true)
    (ha : truthy (getField payload "author") = true)
    (hn : truthy (getField payload "name") = true)
    (hpt : truthy (getField payload "point") = true)
    (hbp : truthy (unwrapApiResponse resData) = false) :
    (hasAck = true →
      Effect.ackCall (ackFail "Blueprint not found after persisting point") ∈
        drawEventHandler payload hasAck (Except.ok ())
          (FetchOutcome.success resData)) ∧
    Effect.emitCaller "warning"
        (errObj "Blueprint not found after persisting point") ∈
      drawEventHandler payload hasAck (Except.ok ())
        (FetchOutcome.success resData) ∧
    (∀ eff ∈ drawEventHandler payload hasAck (Except.ok ())
        (FetchOutcome.success resData), eff.isBroadcast = false) := by
  rw [drawEvent_absent_trace payload hasAck resData hp ha hn hpt hbp]
  cases hasAck <;>
    simp [ackIf, Effect.isBroadcast]

/-- C5 witness: the absent-document theorem at a concrete payload whose
fetch response carries a null data field. -/
theorem drawEvent_absentDocument_warns_witness :
    Effect.emitCaller "warning"
        (errObj "Blueprint not found after persisting point") ∈
      drawEventHandler samplePayload true (Except.ok ())
        (FetchOutcome.success (JSValue.vobj [("data", JSValue.vnull)])) :=
  (drawEvent_absentDocument_warns samplePayload true
    (JSValue.vobj [("data", JSValue.vnull)]) (by decide) (by decide)
    (by decide) (by decide) (by decide)).2.1

/-- C6: for a draw-event whose payload is absent or lacks author, name or
point, the handler acknowledges ok=false with a message naming the
missing fields (when a callback was supplied), emits an error event, and
performs no external call: its trace holds no append call, no fetch call
and no broadcast. -/
theorem drawEvent_validation_rejects
    (payload : JSValue) (hasAck : Bool)
    (appendOutcome : Except String Unit) (fetchOutcome : FetchOutcome)
    (hbad : truthy payload = false ∨
      truthy (getField payload "author") = false ∨
      truthy (getField payload "name") = false ∨
      truthy (getField payload "point") = false) :
    drawEventHandler payload hasAck appendOutcome fetchOutcome =
      ackIf hasAck (ackFail "draw-event: missing author, name or point") ++
        [Effect.emitCaller "error"
          (errObj "draw-event: missing author, name or point")] ∧
    (hasAck = true →
      Effect.ackCall (ackFail "draw-event: missing author, name or point") ∈
        drawEventHandler payload hasAck appendOutcome fetchOutcome) ∧
    (∀ eff ∈ drawEventHandler payload hasAck appendOutcome fetchOutcome,
      eff.isAppendCall = false ∧ eff.isFetchCall = false ∧
        eff.isBroadcast = false) := by
  have hv : drawEventHandler payload hasAck appendOutcome fetchOutcome =
      ackIf hasAck (ackFail "draw-event: missing author, name or point") ++
        [Effect.emitCaller "error"
          (errObj "draw-event: missing author, name or point")] := by
    rcases hbad with h | h | h | h <;> simp [drawEventHandler, h]
  rw [hv]
  cases hasAck <;>
    simp [ackIf, Effect.isAppendCall, Effect.isFetchCall, Effect.isBroadcast]

/-- C6 witness: the validation theorem at a concrete payload lacking the
point field. -/
theorem drawEvent_validation_rejects_witness :
    drawEventHandler sampleJoinPayload true (Except.ok ())
        (FetchOutcome.failure "unused") =
      ackIf true (ackFail "draw-event: missing author, name or point") ++
        [Effect.emitCaller "error"
          (errObj "draw-event: missing author, name or point")] :=
  (drawEvent_validation_rejects sampleJoinPayload true (Except.ok ())
    (FetchOutcome.failure "unused")
    (Or.inr (Or.inr (Or.inr (by decide))))).1

/-- Joining a room makes the socket a member, whether or not it already
was one. -/
theorem isMember_sioJoin (st : RoomState) (room : String) (s : SocketId) :
    isMember (sioJoin st room s) room s = true := by
  by_cases h : (room, s) ∈ st <;> simp [isMember, sioJoin, h]

/-- C7: for a join-room request with non-empty author and name, when the
initial fetch fails the handler sends a warning to the joining socket
only (no broadcast occurs), and the join itself has succeeded: the
socket is a member of the room in the resulting registry state. -/
theorem joinRoom_fetchFailure_joinSucceeds
    (payload : JSValue) (a n e : String) (st : RoomState) (caller : SocketId)
    (hp : truthy payload = true)
    (ha : getField payload "author" = JSValue.vstr a)
    (hn : getField payload "name" = JSValue.vstr n)
    (hae : a ≠ "") (hne : n ≠ "") :
    Effect.emitCaller "warning"
        (errObj "Could not fetch blueprint state from API") ∈
      (joinRoomHandler payload (FetchOutcome.failure e) st caller).2 ∧
    (∀ eff ∈ (joinRoomHandler payload (FetchOutcome.failure e) st caller).2,
      eff.isBroadcast = false) ∧
    isMember (joinRoomHandler payload (FetchOutcome.failure e) st caller).1
      (roomName a n) caller = true := by
  have hv : joinRoomHandler payload (FetchOutcome.failure e) st caller =
      (sioJoin st (roomName a n) caller,
        [Effect.fetchCall (JSValue.vstr a) (JSValue.vstr n),
          Effect.emitCaller "warning"
            (errObj "Could not fetch blueprint state from API")]) := by
    have ha' : truthy (getField payload "author") = true := by
      rw [ha]; simp [truthy, hae]
    have hn' : truthy (getField payload "name") = true := by
      rw [hn]; simp [truthy, hne]
    simp [joinRoomHandler, fetchBlueprint, hp, ha', hn', ha, hn, jsToString]
    exact ⟨by simp [truthy, hae], by simp [truthy, hne]⟩
  rw [hv]
  exact ⟨by simp, by simp [Effect.isBroadcast], isMember_sioJoin st (roomName a n) caller⟩

/-- C7 witness: the join theorem at a concrete payload, a failing fetch
and the empty registry. -/
theorem joinRoom_fetchFailure_joinSucceeds_witness :
    isMember
      (joinRoomHandler sampleJoinPayload (FetchOutcome.failure "timeout") [] 7).1
      (roomName "alice" "plano1") 7 = true :=
  (joinRoom_fetchFailure_joinSucceeds sampleJoinPayload "alice" "plano1"
    "timeout" [] 7 (by decide) rfl rfl (by decide) (by decide)).2.2

/-- C8: fetchBlueprint unwraps the envelope and returns its data field
when present and truthy; a missing or null data field yields an absent
(null) document rather than an error; a transport failure is signalled
as an error, so absent and failure are distinguished. -/
theorem fetchBlueprint_envelope (resData : JSValue) (r : String) :
    (truthy resData = true → truthy (getField resData "data") = true →
      fetchBlueprint (FetchOutcome.success resData) =
        Except.ok (getField resData "data")) ∧
    (getField resData "data" = JSValue.vnull ∨
        getField resData "data" = JSValue.vundefined →
      fetchBlueprint (FetchOutcome.success resData) = Except.ok JSValue.vnull) ∧
    fetchBlueprint (FetchOutcome.failure r) = Except.error r ∧
    (∀ m, fetchBlueprint (FetchOutcome.success resData) ≠ Except.error m) := by
  refine ⟨?_, ?_, rfl, ?_⟩
  · intro h1 h2
    simp [fetchBlueprint, unwrapApiResponse, h1, h2]
  · intro hd
    rcases hd with hd | hd <;>
      simp [fetchBlueprint, unwrapApiResponse, hd, truthy]
  · intro m
    simp [fetchBlueprint]

/-- C8 witness: the envelope theorem at a concrete present document, a
null data field and a concrete transport failure. -/
theorem fetchBlueprint_envelope_witness :
    fetchBlueprint
        (FetchOutcome.success (JSValue.vobj [("data", JSValue.vstr "bp")])) =
      Except.ok (JSValue.vstr "bp") ∧
    fetchBlueprint
        (FetchOutcome.success (JSValue.vobj [("data", JSValue.vnull)])) =
      Except.ok JSValue.vnull ∧
    fetchBlueprint (FetchOutcome.failure "timeout") = Except.error "timeout" := by
  refine ⟨?_, ?_, ?_⟩
  · have h := fetchBlueprint_envelope
      (JSValue.vobj [("data", JSValue.vstr "bp")]) "timeout"
    simpa using h.1 (by decide) (by decide)
  · exact (fetchBlueprint_envelope
      (JSValue.vobj [("data", JSValue.vnull)]) "timeout").2.1 (Or.inl rfl)
  · exact (fetchBlueprint_envelope JSValue.vnull "timeout").2.2.1

/-- C9: disconnecting a socket removes it from every room: afterwards it
is a member of no room, it is never among the recipients of any later
broadcast to any room, and every other membership is preserved, so the
membership invariant survives the disconnect. -/
theorem disconnect_removesEverywhere (st : RoomState) (s : SocketId)
    (room : String) :
    isMember (sioDisconnect st s) room s = false ∧
    s ∉ broadcastRecipients (sioDisconnect st s) room ∧
    (∀ r sck, isMember (sioDisconnect st s) r sck =
      (isMember st r sck && decide (sck ≠ s))) := by
  refine ⟨?_, ?_, ?_⟩
  · simp [isMember, sioDisconnect, List.mem_filter]
  · intro hmem
    simp only [broadcastRecipients, sioDisconnect, List.mem_map,
      List.mem_filter] at hmem
    obtain ⟨p, ⟨⟨-, hp2⟩, -⟩, hps⟩ := hmem
    exact (by simpa using hp2 : p.2 ≠ s) hps
  · intro r sck
    by_cases h : (r, sck) ∈ st
    · by_cases hs : sck = s <;>
        simp [isMember, sioDisconnect, List.mem_filter, h, hs]
    · simp [isMember, sioDisconnect, List.mem_filter, h]

/-- C10: a successful fetch response whose envelope data field is present
but falsy (the number zero, false, or the empty string) unwraps to an
absent (null) document exactly as a missing or null data field does, so a
draw-event whose post-append fetch yields such a value is reported as
blueprint-not-found and not broadcast. -/
theorem drawEvent_falsyData_absent
    (payload : JSValue) (hasAck : Bool) (resData : JSValue)
    (hp : truthy payload = true)
    (ha : truthy (getField payload "author") = true)
    (hn : truthy (getField payload "name") = true)
    (hpt : truthy (getField payload "point") = true)
    (hd : getField resData "data" = JSValue.vnum 0 ∨
      getField resData "data" = JSValue.vbool false ∨
      getField resData "data" = JSValue.vstr "") :
    fetchBlueprint (FetchOutcome.success resData) = Except.ok JSValue.vnull ∧
    Effect.emitCaller "warning"
        (errObj "Blueprint not found after persisting point") ∈
      drawEventHandler payload hasAck (Except.ok ())
        (FetchOutcome.success resData) ∧
    (hasAck = true →
      Effect.ackCall (ackFail "Blueprint not found after persisting point") ∈
        drawEventHandler payload hasAck (Except.ok ())
          (FetchOutcome.success resData)) ∧
    (∀ eff ∈ drawEventHandler payload hasAck (Except.ok ())
        (FetchOutcome.success resData), eff.isBroadcast = false) := by
  have habs : unwrapApiResponse resData = JSValue.vnull := by
    rcases hd with hd | hd | hd <;>
      simp [unwrapApiResponse, hd, truthy]
  have hbp : truthy (unwrapApiResponse resData) = false := by
    rw [habs]; rfl
  have hv := drawEvent_absent_trace payload hasAck resData hp ha hn hpt hbp
  rw [hv]
  refine ⟨by simp [fetchBlueprint, habs], ?_, ?_, ?_⟩ <;>
    cases hasAck <;> simp [ackIf, Effect.isBroadcast]

/-- C10 witness: the falsy-data theorem at a concrete payload whose fetch
response carries the number zero in its data field. -/
theorem drawEvent_falsyData_absent_witness :
    fetchBlueprint
        (FetchOutcome.success (JSValue.vobj [("data", JSValue.vnum 0)])) =
      Except.ok JSValue.vnull ∧
    Effect.emitCaller "warning"
        (errObj "Blueprint not found after persisting point") ∈
      drawEventHandler samplePayload true (Except.ok ())
        (FetchOutcome.success (JSValue.vobj [("data", JSValue.vnum 0)])) :=
  have h := drawEvent_falsyData_absent samplePayload true
    (JSValue.vobj [("data", JSValue.vnum 0)]) (by decide) (by decide)
    (by decide) (by decide) (Or.inl rfl)
  ⟨h.1, h.2.1⟩

end RelayGateway
